import Mathlib

/-
Shallow embedding of the retaining-wall analysis pipeline
(geometry.py, earth_pressure.py, stability_analysis.py,
rebar_calculation.py, retaining_wall_calculator.py).

Conventions of the embedding:
* Python floats are modelled as real numbers.
* Python's `float('inf')` sentinel for factors of safety is modelled with
  `WithTop ℝ` (`⊤` is positive infinity); `x / inf = 0.0` float semantics is
  modelled by `divW`.
* `math.sqrt` raises `ValueError` on a negative argument, so the code paths
  that can reach such a call are modelled with `Option` (`none` = the raised
  domain error).  All other arithmetic in the source is total over ℝ.
-/

open Real

namespace RetainingWall

/-- math.radians: degrees to radians. -/
noncomputable def radians (deg : ℝ) : ℝ := deg * (Real.pi / 180)

/-- Unit system selector, params["units"]. -/
inductive Units where
  | metric
  | imperial
deriving DecidableEq

/-- params["wall_material"]. -/
inductive WallMaterial where
  | concrete
  | stone_masonry
deriving DecidableEq

/-- params["slab_material"]. -/
inductive SlabMaterial where
  | concrete
  | cement_treated_base
  | none
deriving DecidableEq

/-- params["face_wall_position"]. -/
inductive FacePosition where
  | toe_side
  | heel_side
deriving DecidableEq

/-- params["shear_key_position"]. -/
inductive ShearKeyPosition where
  | toe
  | heel
  | under_wall
deriving DecidableEq

/-- One entry of parameters.soil_properties (imperial twin fields as added
by unit_conversion.convert_units when units == "imperial"). -/
structure SoilProps where
  unit_weight_kn_m3 : ℝ
  friction_angle_deg : ℝ
  cohesion_kpa : ℝ
  allowable_bearing_pressure_kpa : ℝ
  unit_weight_pcf : ℝ
  allowable_bearing_pressure_psf : ℝ

/-- One entry of parameters.material_properties (only the unit weights are
read by the stability engine; imperial twin added by convert_units). -/
structure MaterialProps where
  unit_weight_kn_m3 : ℝ
  unit_weight_pcf : ℝ

/-- The flat parameter dictionary (parameters.default_params keys that the
geometry resolver, stability engine and orchestrator read; the `_ft`/`_lb`
/`_psf` twins are the ones convert_units adds for imperial runs). -/
structure Params where
  units : Units
  wall_height_m : ℝ
  foundation_depth_m : ℝ
  toe_length_m : ℝ
  heel_length_m : ℝ
  wall_top_width_m : ℝ
  wall_base_width_m : ℝ
  groundwater_level_m_below_base : ℝ
  shear_key_depth_m : ℝ
  shear_key_width_m : ℝ
  active_side_ground_elevation_m : ℝ
  passive_side_ground_elevation_m : ℝ
  point_load_kn : ℝ
  point_load_distance_from_wall_m : ℝ
  surcharge_load_kpa : ℝ
  foundation_lower_than_passive_side_m : ℝ
  wall_height_ft : ℝ
  foundation_depth_ft : ℝ
  toe_length_ft : ℝ
  heel_length_ft : ℝ
  wall_top_width_ft : ℝ
  wall_base_width_ft : ℝ
  groundwater_level_ft_below_base : ℝ
  shear_key_depth_ft : ℝ
  shear_key_width_ft : ℝ
  active_side_ground_elevation_ft : ℝ
  passive_side_ground_elevation_ft : ℝ
  point_load_lb : ℝ
  point_load_distance_from_wall_ft : ℝ
  surcharge_load_psf : ℝ
  foundation_lower_than_passive_side_ft : ℝ
  wall_material : WallMaterial
  slab_material : SlabMaterial
  face_wall_position : FacePosition
  shear_key_used : Bool
  shear_key_position : ShearKeyPosition

/-- The dictionary returned by geometry.calculate_geometry. -/
structure Geometry where
  H_total : ℝ
  h_wall_stem : ℝ
  D_f : ℝ
  B_toe : ℝ
  B_heel : ℝ
  t_top : ℝ
  t_base : ℝ
  groundwater_level_below_base : ℝ
  shear_key_depth : ℝ
  shear_key_width : ℝ
  B_base : ℝ
  wall_base_offset_from_toe : ℝ
  active_side_ground_elevation : ℝ
  passive_side_ground_elevation : ℝ
  active_side_slope_height : ℝ
  point_load : ℝ
  point_load_distance_from_wall : ℝ
  surcharge_load : ℝ
  foundation_lower_than_passive_side : ℝ

/-- geometry.calculate_geometry (pure arithmetic, total). -/
noncomputable def calculate_geometry (params : Params) : Geometry :=
  let wall_height := if params.units = Units.metric then params.wall_height_m else params.wall_height_ft
  let foundation_depth := if params.units = Units.metric then params.foundation_depth_m else params.foundation_depth_ft
  let toe_length := if params.units = Units.metric then params.toe_length_m else params.toe_length_ft
  let heel_length := if params.units = Units.metric then params.heel_length_m else params.heel_length_ft
  let t_top := if params.units = Units.metric then params.wall_top_width_m else params.wall_top_width_ft
  let t_base := if params.units = Units.metric then params.wall_base_width_m else params.wall_base_width_ft
  let groundwater_level_below_base := if params.units = Units.metric then params.groundwater_level_m_below_base else params.groundwater_level_ft_below_base
  let shear_key_depth := if params.units = Units.metric then params.shear_key_depth_m else params.shear_key_depth_ft
  let shear_key_width := if params.units = Units.metric then params.shear_key_width_m else params.shear_key_width_ft
  let active_side_ground_elevation := if params.units = Units.metric then params.active_side_ground_elevation_m else params.active_side_ground_elevation_ft
  let passive_side_ground_elevation := if params.units = Units.metric then params.passive_side_ground_elevation_m else params.passive_side_ground_elevation_ft
  let point_load := if params.units = Units.metric then params.point_load_kn else params.point_load_lb
  let point_load_distance_from_wall := if params.units = Units.metric then params.point_load_distance_from_wall_m else params.point_load_distance_from_wall_ft
  let surcharge_load := if params.units = Units.metric then params.surcharge_load_kpa else params.surcharge_load_psf
  let foundation_lower_than_passive_side := if params.units = Units.metric then params.foundation_lower_than_passive_side_m else params.foundation_lower_than_passive_side_ft
  let h_wall_stem := wall_height
  let H_total := h_wall_stem + foundation_depth
  let B_base := if params.face_wall_position = FacePosition.toe_side
    then toe_length + t_base + heel_length
    else toe_length + t_base + heel_length
  let wall_base_offset_from_toe := if params.face_wall_position = FacePosition.toe_side
    then toe_length
    else B_base - heel_length - t_base
  let active_side_slope_height := if wall_height < active_side_ground_elevation
    then active_side_ground_elevation - wall_height
    else 0
  { H_total := H_total
    h_wall_stem := h_wall_stem
    D_f := foundation_depth
    B_toe := toe_length
    B_heel := heel_length
    t_top := t_top
    t_base := t_base
    groundwater_level_below_base := groundwater_level_below_base
    shear_key_depth := shear_key_depth
    shear_key_width := shear_key_width
    B_base := B_base
    wall_base_offset_from_toe := wall_base_offset_from_toe
    active_side_ground_elevation := active_side_ground_elevation
    passive_side_ground_elevation := passive_side_ground_elevation
    active_side_slope_height := active_side_slope_height
    point_load := point_load
    point_load_distance_from_wall := point_load_distance_from_wall
    surcharge_load := surcharge_load
    foundation_lower_than_passive_side := foundation_lower_than_passive_side }

/-- earth_pressure.calculate_ka.  The sloped-backfill branch calls
math.sqrt, which raises ValueError when the radicand is negative: that
raised domain error is modelled as `none`. -/
noncomputable def calculate_ka (phi_deg : ℝ) (beta_deg : ℝ) : Option ℝ :=
  let phi_rad := radians phi_deg
  let beta_rad := radians beta_deg
  if beta_deg = 0 then
    some ((Real.tan (Real.pi / 4 - phi_rad / 2)) ^ 2)
  else
    let radicand := (Real.cos beta_rad) ^ 2 - (Real.cos phi_rad) ^ 2
    if radicand < 0 then
      Option.none
    else
      some (Real.cos beta_rad *
        ((Real.cos beta_rad - Real.sqrt radicand) /
         (Real.cos beta_rad + Real.sqrt radicand)))

/-- earth_pressure.calculate_kp (total). -/
noncomputable def calculate_kp (phi_deg : ℝ) : ℝ :=
  (Real.tan (Real.pi / 4 + radians phi_deg / 2)) ^ 2

/-- earth_pressure.calculate_earth_pressure.  `none` models a ValueError
propagating out of calculate_ka. -/
noncomputable def calculate_earth_pressure (soil_props : SoilProps) (height : ℝ)
    (groundwater_depth : Option ℝ) (is_active : Bool) (surcharge_load : ℝ)
    (active_side_slope_height : ℝ) : Option ℝ :=
  let gamma := soil_props.unit_weight_kn_m3
  let phi := soil_props.friction_angle_deg
  let _c := soil_props.cohesion_kpa
  let beta_deg : ℝ := if is_active = true ∧ active_side_slope_height > 0 then 26.565 else 0
  let Kopt : Option ℝ := if is_active = true then calculate_ka phi beta_deg else some (calculate_kp phi)
  Kopt.bind fun K =>
    let pressure := gamma * height * K + surcharge_load * K
    let pressure :=
      match groundwater_depth with
      | Option.some gw =>
        if height > gw then
          let gamma_submerged := gamma - 9.81
          let pressure_above_gw := gamma * gw * K
          let pressure_below_gw := gamma_submerged * (height - gw) * K + 9.81 * (height - gw)
          pressure_above_gw + pressure_below_gw
        else pressure
      | Option.none => pressure
    some pressure

/-- rebar_calculation.calculate_rebar_area (total: the radicand of the
square root is clamped at 0 before Real.sqrt is applied). -/
noncomputable def calculate_rebar_area (Mu_knm b_mm d_mm fc_mpa fy_mpa : ℝ) : ℝ :=
  let Mu_nmm := Mu_knm * 1e6
  let phi : ℝ := 0.9
  let Rn := Mu_nmm / (phi * b_mm * d_mm ^ 2)
  let sqrt_term := 1 - (2 * Rn) / (0.85 * fc_mpa)
  let sqrt_term := if sqrt_term < 0 then 0 else sqrt_term
  let rho := (0.85 * fc_mpa / fy_mpa) * (1 - Real.sqrt sqrt_term)
  rho * b_mm * d_mm

/-- Float division with a possibly-infinite denominator: Python gives
`a / float('inf') == 0.0` for finite `a`. -/
noncomputable def divW (a : ℝ) : WithTop ℝ → WithTop ℝ
  | ⊤ => ((0 : ℝ) : WithTop ℝ)
  | (x : ℝ) => ((a / x : ℝ) : WithTop ℝ)

/-- The dictionary returned by stability_analysis.perform_stability_analysis.
The four factor/pressure fields that the source can set to `float('inf')`
are `WithTop ℝ`; everything else is a plain real. -/
structure StabilityResult where
  total_vertical_force : ℝ
  resisting_moment_about_toe : ℝ
  Pa_at_base : ℝ
  Pa_force : ℝ
  y_Pa : ℝ
  Pp_at_base : ℝ
  Pp_force : ℝ
  y_Pp : ℝ
  shear_key_resistance : ℝ
  overturning_moment : ℝ
  FS_overturning : WithTop ℝ
  sliding_force : ℝ
  total_resisting_sliding_force : ℝ
  FS_sliding : WithTop ℝ
  x_bar : ℝ
  e : ℝ
  q_max : WithTop ℝ
  q_min : ℝ
  FS_bearing : WithTop ℝ
  weight_stem : ℝ
  weight_base_slab : ℝ
  weight_soil_heel : ℝ
  weight_soil_toe : ℝ

/-- stability_analysis.perform_stability_analysis.  `none` models a
ValueError raised inside one of the calculate_earth_pressure calls. -/
noncomputable def perform_stability_analysis (params : Params) (geometry : Geometry)
    (active_soil passive_soil : SoilProps)
    (wall_material_props slab_material_props : MaterialProps) :
    Option StabilityResult :=
  let H_total := geometry.H_total
  let h_wall_stem := geometry.h_wall_stem
  let D_f := geometry.D_f
  let B_toe := geometry.B_toe
  let B_heel := geometry.B_heel
  let t_top := geometry.t_top
  let t_base := geometry.t_base
  let B_base := geometry.B_base
  let wall_base_offset_from_toe := geometry.wall_base_offset_from_toe
  let groundwater_level_below_base := geometry.groundwater_level_below_base
  let shear_key_depth := geometry.shear_key_depth
  let surcharge_load := geometry.surcharge_load
  let active_side_ground_elevation := geometry.active_side_ground_elevation
  let passive_side_ground_elevation := geometry.passive_side_ground_elevation
  let foundation_lower_than_passive_side := geometry.foundation_lower_than_passive_side
  let area_stem := 0.5 * (t_top + t_base) * h_wall_stem
  let weight_stem := area_stem * (if params.units = Units.metric then wall_material_props.unit_weight_kn_m3 else wall_material_props.unit_weight_pcf)
  let x_stem := wall_base_offset_from_toe + (t_base / 3) * ((2 * t_top + t_base) / (t_top + t_base))
  let area_base_slab := B_base * D_f
  let weight_base_slab := area_base_slab * (if params.units = Units.metric then slab_material_props.unit_weight_kn_m3 else slab_material_props.unit_weight_pcf)
  let x_base_slab := B_base / 2
  let area_soil_heel := B_heel * (h_wall_stem + active_side_ground_elevation)
  let weight_soil_heel := area_soil_heel * (if params.units = Units.metric then active_soil.unit_weight_kn_m3 else active_soil.unit_weight_pcf)
  let x_soil_heel := B_base - B_heel / 2
  let area_soil_toe := B_toe * passive_side_ground_elevation
  let weight_soil_toe := area_soil_toe * (if params.units = Units.metric then passive_soil.unit_weight_kn_m3 else passive_soil.unit_weight_pcf)
  let x_soil_toe := B_toe / 2
  let total_vertical_force := weight_stem + weight_base_slab + weight_soil_heel + weight_soil_toe
  let resisting_moment_about_toe := weight_stem * x_stem + weight_base_slab * x_base_slab + weight_soil_heel * x_soil_heel + weight_soil_toe * x_soil_toe
  let groundwater_depth_from_surface := D_f + groundwater_level_below_base
  (calculate_earth_pressure active_soil H_total (some groundwater_depth_from_surface) true surcharge_load geometry.active_side_slope_height).bind fun Pa_at_base =>
  let Pa_force := 0.5 * Pa_at_base * H_total
  let y_Pa := H_total / 3
  let passive_depth_for_pressure := D_f + foundation_lower_than_passive_side
  (calculate_earth_pressure passive_soil passive_depth_for_pressure (some groundwater_depth_from_surface) false 0 0).bind fun Pp_at_base =>
  let Pp_force := 0.5 * Pp_at_base * passive_depth_for_pressure
  let y_Pp := passive_depth_for_pressure / 3
  let shear_key_resistance_opt : Option ℝ :=
    if params.shear_key_used = true ∧ params.slab_material = SlabMaterial.concrete then
      if params.shear_key_position = ShearKeyPosition.heel then
        some 0
      else
        let shear_key_soil_depth_start := D_f
        let shear_key_soil_depth_end := D_f + shear_key_depth
        (calculate_earth_pressure passive_soil shear_key_soil_depth_start (some groundwater_depth_from_surface) false 0 0).bind fun Pp_at_top_of_key =>
        (calculate_earth_pressure passive_soil shear_key_soil_depth_end (some groundwater_depth_from_surface) false 0 0).bind fun Pp_at_bottom_of_key =>
        some (0.5 * (Pp_at_top_of_key + Pp_at_bottom_of_key) * shear_key_depth)
    else some 0
  shear_key_resistance_opt.bind fun shear_key_resistance =>
  let overturning_moment := Pa_force * y_Pa
  let FS_overturning : WithTop ℝ :=
    if overturning_moment > 0 then ((resisting_moment_about_toe / overturning_moment : ℝ) : WithTop ℝ) else ⊤
  let sliding_force := Pa_force - Pp_force
  let friction_angle_base := (2 / 3) * active_soil.friction_angle_deg
  let friction_resisting_force := total_vertical_force * Real.tan (radians friction_angle_base)
  let total_resisting_sliding_force := friction_resisting_force + Pp_force + shear_key_resistance
  let FS_sliding : WithTop ℝ :=
    if sliding_force > 0 then ((total_resisting_sliding_force / sliding_force : ℝ) : WithTop ℝ) else ⊤
  let x_bar := (resisting_moment_about_toe - overturning_moment) / total_vertical_force
  let e := x_bar - B_base / 2
  let q_max : WithTop ℝ :=
    if |e| > B_base / 6 then
      (if x_bar > 0 then (((2 * total_vertical_force) / (3 * x_bar) : ℝ) : WithTop ℝ) else ⊤)
    else ((total_vertical_force / B_base * (1 + 6 * e / B_base) : ℝ) : WithTop ℝ)
  let q_min : ℝ :=
    if |e| > B_base / 6 then 0
    else total_vertical_force / B_base * (1 - 6 * e / B_base)
  let allowable := if params.units = Units.metric then active_soil.allowable_bearing_pressure_kpa else active_soil.allowable_bearing_pressure_psf
  let FS_bearing : WithTop ℝ :=
    if (0 : WithTop ℝ) < q_max then divW allowable q_max else ⊤
  some {
    total_vertical_force := total_vertical_force
    resisting_moment_about_toe := resisting_moment_about_toe
    Pa_at_base := Pa_at_base
    Pa_force := Pa_force
    y_Pa := y_Pa
    Pp_at_base := Pp_at_base
    Pp_force := Pp_force
    y_Pp := y_Pp
    shear_key_resistance := shear_key_resistance
    overturning_moment := overturning_moment
    FS_overturning := FS_overturning
    sliding_force := sliding_force
    total_resisting_sliding_force := total_resisting_sliding_force
    FS_sliding := FS_sliding
    x_bar := x_bar
    e := e
    q_max := q_max
    q_min := q_min
    FS_bearing := FS_bearing
    weight_stem := weight_stem
    weight_base_slab := weight_base_slab
    weight_soil_heel := weight_soil_heel
    weight_soil_toe := weight_soil_toe }

/-- The slab-material handling in calculate_retaining_wall: the "none"
slab material is replaced by a zero-weight sentinel before the stability
engine runs. -/
noncomputable def resolved_slab_props (params : Params) (raw : MaterialProps) : MaterialProps :=
  if params.slab_material = SlabMaterial.none then ⟨0, 0⟩ else raw

/-- retaining_wall_calculator.calculate_retaining_wall, restricted to its
analytical core: the slab-material "none" zero-weight sentinel, geometry,
the first stability pass, and the one-shot shear-key retry.  The second
component of the returned pair counts how many times the stability engine
was invoked. -/
noncomputable def calculate_retaining_wall_stability (params : Params)
    (active_soil passive_soil : SoilProps)
    (wall_material_props slab_material_props_raw : MaterialProps) :
    Option (StabilityResult × ℕ) :=
  let slab_material_props := resolved_slab_props params slab_material_props_raw
  let geometry := calculate_geometry params
  (perform_stability_analysis params geometry active_soil passive_soil wall_material_props slab_material_props).bind fun stability_results =>
  if stability_results.FS_sliding < ((1.5 : ℝ) : WithTop ℝ) ∧ params.slab_material = SlabMaterial.concrete then
    let params2 := { params with shear_key_used := true }
    (perform_stability_analysis params2 geometry active_soil passive_soil wall_material_props slab_material_props).bind fun stability_results2 =>
    some (stability_results2, 2)
  else some (stability_results, 1)

/-- parameters.default_params (metric defaults; the `_ft`/`_lb`/`_psf`
twins do not exist before convert_units runs, and a metric run never reads
them, so they are set to 0 here). -/
noncomputable def default_params : Params where
  units := Units.metric
  wall_height_m := 5.0
  foundation_depth_m := 1.0
  toe_length_m := 1.5
  heel_length_m := 2.5
  wall_top_width_m := 0.3
  wall_base_width_m := 0.6
  groundwater_level_m_below_base := 1.0
  shear_key_depth_m := 0.5
  shear_key_width_m := 0.5
  active_side_ground_elevation_m := 5.0
  passive_side_ground_elevation_m := 0.0
  point_load_kn := 0.0
  point_load_distance_from_wall_m := 1.0
  surcharge_load_kpa := 0.0
  foundation_lower_than_passive_side_m := 0.0
  wall_height_ft := 0
  foundation_depth_ft := 0
  toe_length_ft := 0
  heel_length_ft := 0
  wall_top_width_ft := 0
  wall_base_width_ft := 0
  groundwater_level_ft_below_base := 0
  shear_key_depth_ft := 0
  shear_key_width_ft := 0
  active_side_ground_elevation_ft := 0
  passive_side_ground_elevation_ft := 0
  point_load_lb := 0
  point_load_distance_from_wall_ft := 0
  surcharge_load_psf := 0
  foundation_lower_than_passive_side_ft := 0
  wall_material := WallMaterial.concrete
  slab_material := SlabMaterial.concrete
  face_wall_position := FacePosition.toe_side
  shear_key_used := false
  shear_key_position := ShearKeyPosition.under_wall

/-- parameters.soil_properties["ordinary_soil"] (imperial twins as
convert_units would add them). -/
noncomputable def ordinary_soil : SoilProps where
  unit_weight_kn_m3 := 18.0
  friction_angle_deg := 30.0
  cohesion_kpa := 0.0
  allowable_bearing_pressure_kpa := 150.0
  unit_weight_pcf := 18.0 * 6.366
  allowable_bearing_pressure_psf := 150.0 * 20.885

/-- parameters.soil_properties["compacted_to_cbr_6_percent_soil"]. -/
noncomputable def compacted_to_cbr_6_percent_soil : SoilProps where
  unit_weight_kn_m3 := 19.0
  friction_angle_deg := 32.0
  cohesion_kpa := 5.0
  allowable_bearing_pressure_kpa := 200.0
  unit_weight_pcf := 19.0 * 6.366
  allowable_bearing_pressure_psf := 200.0 * 20.885

/-- compacted_to_cbr_6_percent_soil with its cohesion replaced by zero and
every other property unchanged. -/
noncomputable def compacted_soil_without_cohesion : SoilProps where
  unit_weight_kn_m3 := 19.0
  friction_angle_deg := 32.0
  cohesion_kpa := 0.0
  allowable_bearing_pressure_kpa := 200.0
  unit_weight_pcf := 19.0 * 6.366
  allowable_bearing_pressure_psf := 200.0 * 20.885

/-- A weightless, frictionless, cohesionless test soil used to exercise the
degenerate branches of the stability engine on a concrete input. -/
noncomputable def zero_soil : SoilProps where
  unit_weight_kn_m3 := 0
  friction_angle_deg := 0
  cohesion_kpa := 0
  allowable_bearing_pressure_kpa := 1
  unit_weight_pcf := 0
  allowable_bearing_pressure_psf := 1

/-- A unit-weight material for concrete test inputs. -/
noncomputable def unit_material : MaterialProps where
  unit_weight_kn_m3 := 1
  unit_weight_pcf := 1

/-- A concrete metric parameter set with weightless soil on both sides:
every earth pressure evaluates to zero, so the overturning moment and the
net sliding force both vanish. -/
noncomputable def degenerate_params : Params where
  units := Units.metric
  wall_height_m := 1
  foundation_depth_m := 1
  toe_length_m := 1
  heel_length_m := 1
  wall_top_width_m := 1
  wall_base_width_m := 1
  groundwater_level_m_below_base := 100
  shear_key_depth_m := 0
  shear_key_width_m := 0
  active_side_ground_elevation_m := 0
  passive_side_ground_elevation_m := 0
  point_load_kn := 0
  point_load_distance_from_wall_m := 0
  surcharge_load_kpa := 0
  foundation_lower_than_passive_side_m := 0
  wall_height_ft := 0
  foundation_depth_ft := 0
  toe_length_ft := 0
  heel_length_ft := 0
  wall_top_width_ft := 0
  wall_base_width_ft := 0
  groundwater_level_ft_below_base := 0
  shear_key_depth_ft := 0
  shear_key_width_ft := 0
  active_side_ground_elevation_ft := 0
  passive_side_ground_elevation_ft := 0
  point_load_lb := 0
  point_load_distance_from_wall_ft := 0
  surcharge_load_psf := 0
  foundation_lower_than_passive_side_ft := 0
  wall_material := WallMaterial.concrete
  slab_material := SlabMaterial.concrete
  face_wall_position := FacePosition.toe_side
  shear_key_used := false
  shear_key_position := ShearKeyPosition.under_wall

/-- The geometry that calculate_geometry produces for degenerate_params. -/
noncomputable def degenerate_geometry : Geometry where
  H_total := 2
  h_wall_stem := 1
  D_f := 1
  B_toe := 1
  B_heel := 1
  t_top := 1
  t_base := 1
  groundwater_level_below_base := 100
  shear_key_depth := 0
  shear_key_width := 0
  B_base := 3
  wall_base_offset_from_toe := 1
  active_side_ground_elevation := 0
  passive_side_ground_elevation := 0
  active_side_slope_height := 0
  point_load := 0
  point_load_distance_from_wall := 0
  surcharge_load := 0
  foundation_lower_than_passive_side := 0

/-- The stability result that perform_stability_analysis produces for
degenerate_params with zero_soil on both sides and unit_material for both
the wall and the slab. -/
noncomputable def degenerate_result : StabilityResult where
  total_vertical_force := 4
  resisting_moment_about_toe := 6
  Pa_at_base := 0
  Pa_force := 0
  y_Pa := 2 / 3
  Pp_at_base := 0
  Pp_force := 0
  y_Pp := 1 / 3
  shear_key_resistance := 0
  overturning_moment := 0
  FS_overturning := ⊤
  sliding_force := 0
  total_resisting_sliding_force := 0
  FS_sliding := ⊤
  x_bar := 3 / 2
  e := 0
  q_max := ((4 / 3 : ℝ) : WithTop ℝ)
  q_min := 4 / 3
  FS_bearing := ((3 / 4 : ℝ) : WithTop ℝ)
  weight_stem := 1
  weight_base_slab := 3
  weight_soil_heel := 0
  weight_soil_toe := 0

/-- degenerate_params with a shear key enabled at the heel position. -/
noncomputable def degenerate_params_heel_key : Params :=
  { degenerate_params with
      shear_key_used := true
      shear_key_position := ShearKeyPosition.heel }

theorem calculate_geometry_degenerate :
    calculate_geometry degenerate_params = degenerate_geometry := by
  simp only [calculate_geometry, degenerate_params, degenerate_geometry]
  norm_num

theorem cep_zero_soil_active :
    calculate_earth_pressure zero_soil 2 (some 101) true 0 0 = some 0 := by
  simp only [calculate_earth_pressure, calculate_ka, radians, zero_soil]
  norm_num [Real.tan_pi_div_four]

theorem cep_zero_soil_passive :
    calculate_earth_pressure zero_soil 1 (some 101) false 0 0 = some 0 := by
  simp only [calculate_earth_pressure, calculate_kp, radians, zero_soil]
  norm_num [Real.tan_pi_div_four]

/-- Claim C1: the claim asserts that toe-side and heel-side face placement
give the same B_base but a DIFFERENT wall_base_offset_from_toe.  At the
repository's own default dimensions (toe 1.5, heel 2.5, stem base 0.6) the
two offsets are equal: the heel-side formula B_base − heel − t_base
simplifies to the toe length. -/
theorem face_position_same_offset_counterexample :
    (calculate_geometry { default_params with face_wall_position := FacePosition.toe_side }).B_base
      = (calculate_geometry { default_params with face_wall_position := FacePosition.heel_side }).B_base
    ∧ (calculate_geometry { default_params with face_wall_position := FacePosition.toe_side }).wall_base_offset_from_toe
      = (calculate_geometry { default_params with face_wall_position := FacePosition.heel_side }).wall_base_offset_from_toe
    ∧ (calculate_geometry { default_params with face_wall_position := FacePosition.toe_side }).wall_base_offset_from_toe
      = 1.5 := by
  simp only [calculate_geometry, default_params]
  norm_num

/-- Claim C1 (amended): for every parameter set, toe-side and heel-side
face placement yield the same B_base = toe + stem base width + heel, with
toe-side offset = toe length and heel-side offset = B_base − heel − stem
base width; these two offsets coincide (both equal the toe length), so the
offset does not depend on the face position. -/
theorem face_position_geometry (p : Params) :
    ((calculate_geometry { p with face_wall_position := FacePosition.toe_side }).B_base
      = (calculate_geometry { p with face_wall_position := FacePosition.heel_side }).B_base)
    ∧ ((calculate_geometry { p with face_wall_position := FacePosition.toe_side }).wall_base_offset_from_toe
      = (calculate_geometry { p with face_wall_position := FacePosition.toe_side }).B_toe)
    ∧ ((calculate_geometry { p with face_wall_position := FacePosition.heel_side }).wall_base_offset_from_toe
      = (calculate_geometry { p with face_wall_position := FacePosition.heel_side }).B_base
        - (calculate_geometry { p with face_wall_position := FacePosition.heel_side }).B_heel
        - (calculate_geometry { p with face_wall_position := FacePosition.heel_side }).t_base)
    ∧ ((calculate_geometry { p with face_wall_position := FacePosition.toe_side }).wall_base_offset_from_toe
      = (calculate_geometry { p with face_wall_position := FacePosition.heel_side }).wall_base_offset_from_toe) := by
  cases hu : p.units <;>
    simp [calculate_geometry, hu]

theorem perform_degenerate_eval :
    perform_stability_analysis degenerate_params degenerate_geometry
      zero_soil zero_soil unit_material unit_material = some degenerate_result := by
  simp only [perform_stability_analysis, calculate_earth_pressure, calculate_ka, calculate_kp,
    radians, degenerate_params, degenerate_geometry, zero_soil, unit_material]
  norm_num [Real.tan_pi_div_four, Real.tan_zero, degenerate_result, divW]

theorem perform_degenerate_heel_eval :
    perform_stability_analysis degenerate_params_heel_key degenerate_geometry
      zero_soil zero_soil unit_material unit_material = some degenerate_result := by
  simp only [perform_stability_analysis, calculate_earth_pressure, calculate_ka, calculate_kp,
    radians, degenerate_params_heel_key, degenerate_params, degenerate_geometry, zero_soil,
    unit_material]
  norm_num [Real.tan_pi_div_four, Real.tan_zero, degenerate_result, divW]

/-- Claim C2: calculate_retaining_wall invokes the stability engine at
most twice; the second invocation, with shear_key_used set to true, happens
exactly when the first result has FS_sliding < 1.5 and the slab material is
concrete (the material that supports a key), and in that case the returned
stability result is the second invocation's result wholesale. -/
theorem shear_key_retry_once (params : Params) (as ps : SoilProps)
    (wm smraw : MaterialProps) (r1 : StabilityResult)
    (h1 : perform_stability_analysis params (calculate_geometry params) as ps wm
        (resolved_slab_props params smraw) = some r1) :
    (∀ r n, calculate_retaining_wall_stability params as ps wm smraw = some (r, n) → n ≤ 2)
    ∧ (if r1.FS_sliding < ((1.5 : ℝ) : WithTop ℝ) ∧ params.slab_material = SlabMaterial.concrete
       then calculate_retaining_wall_stability params as ps wm smraw =
          (perform_stability_analysis { params with shear_key_used := true }
              (calculate_geometry params) as ps wm (resolved_slab_props params smraw)).bind
            (fun r2 => some (r2, 2))
       else calculate_retaining_wall_stability params as ps wm smraw = some (r1, 1)) := by
  have key : calculate_retaining_wall_stability params as ps wm smraw =
      if r1.FS_sliding < ((1.5 : ℝ) : WithTop ℝ) ∧ params.slab_material = SlabMaterial.concrete
      then (perform_stability_analysis { params with shear_key_used := true }
              (calculate_geometry params) as ps wm (resolved_slab_props params smraw)).bind
            (fun r2 => some (r2, 2))
      else some (r1, 1) := by
    simp only [calculate_retaining_wall_stability, h1, Option.some_bind]
  constructor
  · intro r n hr
    rw [key] at hr
    by_cases hc : r1.FS_sliding < ((1.5 : ℝ) : WithTop ℝ) ∧ params.slab_material = SlabMaterial.concrete
    · rw [if_pos hc] at hr
      rcases Option.bind_eq_some.mp hr with ⟨r2, _, hr2⟩
      cases hr2
      exact le_refl 2
    · rw [if_neg hc] at hr
      cases hr
      norm_num
  · by_cases hc : r1.FS_sliding < ((1.5 : ℝ) : WithTop ℝ) ∧ params.slab_material = SlabMaterial.concrete
    · rw [if_pos hc, key, if_pos hc]
    · rw [if_neg hc, key, if_neg hc]

/-- Witness for shear_key_retry_once: a concrete run whose first pass has
FS_sliding = ⊤ (not below 1.5), so the engine runs exactly once and the
first result is returned. -/
theorem shear_key_retry_once_witness :
    calculate_retaining_wall_stability degenerate_params zero_soil zero_soil
      unit_material unit_material = some (degenerate_result, 1) := by
  have h1 : perform_stability_analysis degenerate_params (calculate_geometry degenerate_params)
      zero_soil zero_soil unit_material (resolved_slab_props degenerate_params unit_material)
      = some degenerate_result := by
    rw [calculate_geometry_degenerate]
    have : resolved_slab_props degenerate_params unit_material = unit_material := by
      simp [resolved_slab_props, degenerate_params]
    rw [this]
    exact perform_degenerate_eval
  have h := (shear_key_retry_once degenerate_params zero_soil zero_soil unit_material
    unit_material degenerate_result h1).2
  have hcond : ¬ (degenerate_result.FS_sliding < ((1.5 : ℝ) : WithTop ℝ)
      ∧ degenerate_params.slab_material = SlabMaterial.concrete) := by
    rintro ⟨hlt, -⟩
    exact absurd hlt (by simp [degenerate_result])
  rwa [if_neg hcond] at h

/-- Claim C3: the shear_key_resistance field of a stability result is 0
whenever the key position is "heel", whenever the slab material is "none",
and in general whenever it is not the case that the key is enabled, the
slab material is concrete, and the position is away from the heel. -/
theorem shear_key_resistance_zero (params : Params) (g : Geometry) (as ps : SoilProps)
    (wm sm : MaterialProps) (r : StabilityResult)
    (h : perform_stability_analysis params g as ps wm sm = some r) :
    (params.shear_key_position = ShearKeyPosition.heel → r.shear_key_resistance = 0)
    ∧ (params.slab_material = SlabMaterial.none → r.shear_key_resistance = 0)
    ∧ (¬ (params.shear_key_used = true ∧ params.slab_material = SlabMaterial.concrete
          ∧ params.shear_key_position ≠ ShearKeyPosition.heel) →
        r.shear_key_resistance = 0) := by
  simp only [perform_stability_analysis, Option.bind_eq_some] at h
  obtain ⟨Pa, hPa, Pp, hPp, sk, hsk, hr⟩ := h
  cases hr
  refine ⟨?_, ?_, ?_⟩ <;> intro hcond <;> simp only
  · by_cases h1 : params.shear_key_used = true ∧ params.slab_material = SlabMaterial.concrete
    · rw [if_pos h1, if_pos hcond] at hsk
      exact (Option.some_inj.mp hsk).symm
    · rw [if_neg h1] at hsk
      exact (Option.some_inj.mp hsk).symm
  · by_cases h1 : params.shear_key_used = true ∧ params.slab_material = SlabMaterial.concrete
    · rw [hcond] at h1
      exact absurd h1.2 (by simp)
    · rw [if_neg h1] at hsk
      exact (Option.some_inj.mp hsk).symm
  · by_cases h1 : params.shear_key_used = true ∧ params.slab_material = SlabMaterial.concrete
    · by_cases h2 : params.shear_key_position = ShearKeyPosition.heel
      · rw [if_pos h1, if_pos h2] at hsk
        exact (Option.some_inj.mp hsk).symm
      · exact absurd ⟨h1.1, h1.2, h2⟩ hcond
    · rw [if_neg h1] at hsk
      exact (Option.some_inj.mp hsk).symm

/-- Witness for shear_key_resistance_zero: a run with the shear key
enabled, a concrete slab, and the key placed at the heel yields zero key
resistance. -/
theorem shear_key_resistance_zero_witness :
    degenerate_params_heel_key.shear_key_used = true
    ∧ degenerate_params_heel_key.shear_key_position = ShearKeyPosition.heel
    ∧ degenerate_result.shear_key_resistance = 0 := by
  refine ⟨by simp [degenerate_params_heel_key], by simp [degenerate_params_heel_key], ?_⟩
  exact (shear_key_resistance_zero degenerate_params_heel_key degenerate_geometry zero_soil
    zero_soil unit_material unit_material degenerate_result perform_degenerate_heel_eval).1
    (by simp [degenerate_params_heel_key])

/-- Claim C4: numeric degeneracies are explicit positive infinity:
FS_overturning = ⊤ when the overturning moment is zero, FS_sliding = ⊤
when the net driving force is zero or negative, q_max = ⊤ when the
resultant is outside the middle third with x̄ ≤ 0, and FS_bearing = ⊤ when
q_max ≤ 0. -/
theorem infinity_sentinels (params : Params) (g : Geometry) (as ps : SoilProps)
    (wm sm : MaterialProps) (r : StabilityResult)
    (h : perform_stability_analysis params g as ps wm sm = some r) :
    (r.overturning_moment = 0 → r.FS_overturning = ⊤)
    ∧ (r.sliding_force ≤ 0 → r.FS_sliding = ⊤)
    ∧ (|r.e| > g.B_base / 6 → r.x_bar ≤ 0 → r.q_max = ⊤)
    ∧ (r.q_max ≤ (0 : WithTop ℝ) → r.FS_bearing = ⊤) := by
  simp only [perform_stability_analysis, Option.bind_eq_some] at h
  obtain ⟨Pa, hPa, Pp, hPp, sk, hsk, hr⟩ := h
  cases hr
  refine ⟨?_, ?_, ?_, ?_⟩
  · intro h0
    simp only at h0 ⊢
    rw [if_neg]
    rw [h0]
    exact lt_irrefl 0
  · intro h0
    simp only at h0 ⊢
    rw [if_neg (not_lt.mpr h0)]
  · intro h1 h2
    simp only at h1 h2 ⊢
    rw [if_pos h1, if_neg (not_lt.mpr h2)]
  · intro h0
    simp only at h0 ⊢
    rw [if_neg (not_lt.mpr h0)]

/-- Witness for infinity_sentinels: the degenerate run has zero
overturning moment and zero net driving force, and both factors come out
as the explicit infinity sentinel. -/
theorem infinity_sentinels_witness :
    degenerate_result.overturning_moment = 0
    ∧ degenerate_result.FS_overturning = ⊤
    ∧ degenerate_result.sliding_force ≤ 0
    ∧ degenerate_result.FS_sliding = ⊤ := by
  have h := infinity_sentinels degenerate_params degenerate_geometry zero_soil zero_soil
    unit_material unit_material degenerate_result perform_degenerate_eval
  refine ⟨by simp [degenerate_result], h.1 (by simp [degenerate_result]), by simp [degenerate_result], h.2.1 (by simp [degenerate_result])⟩

theorem radians_thirty : Real.pi / 4 - radians 30 / 2 = Real.pi / 6 := by
  unfold radians
  ring

theorem calculate_ka_thirty : calculate_ka (30 : ℝ) 0 = some (1 / 3) := by
  have hbr : calculate_ka (30 : ℝ) 0 = some ((Real.tan (Real.pi / 4 - radians 30 / 2)) ^ 2) := by
    simp [calculate_ka]
  rw [hbr, radians_thirty, Real.tan_pi_div_six, div_pow, one_pow,
    Real.sq_sqrt (by norm_num : (0 : ℝ) ≤ 3)]

/-- Claim C5: for β > φ (negative radicand) calculate_ka fails with an
explicit domain error (`none`, the modelled ValueError); for 0 < β ≤ φ it
returns the Rankine sloped-backfill coefficient. -/
theorem calculate_ka_sloped_domain (phi_deg beta_deg : ℝ)
    (hb0 : 0 < beta_deg) (hb90 : beta_deg ≤ 90) (hp0 : 0 ≤ phi_deg) (hp90 : phi_deg < 90) :
    (phi_deg < beta_deg → calculate_ka phi_deg beta_deg = Option.none)
    ∧ (beta_deg ≤ phi_deg →
        calculate_ka phi_deg beta_deg =
          some (Real.cos (radians beta_deg) *
            ((Real.cos (radians beta_deg) -
                Real.sqrt ((Real.cos (radians beta_deg)) ^ 2 - (Real.cos (radians phi_deg)) ^ 2)) /
             (Real.cos (radians beta_deg) +
                Real.sqrt ((Real.cos (radians beta_deg)) ^ 2 - (Real.cos (radians phi_deg)) ^ 2))))) := by
  have hpi : (0 : ℝ) < Real.pi := Real.pi_pos
  have hfac : (0 : ℝ) < Real.pi / 180 := by positivity
  have hbne : beta_deg ≠ 0 := ne_of_gt hb0
  have hrb0 : 0 < radians beta_deg := by
    unfold radians
    exact mul_pos hb0 hfac
  have hrb2 : radians beta_deg ≤ Real.pi / 2 := by
    unfold radians
    have := mul_le_mul_of_nonneg_right hb90 hfac.le
    linarith
  have hrp0 : 0 ≤ radians phi_deg := by
    unfold radians
    exact mul_nonneg hp0 hfac.le
  have hrp2 : radians phi_deg < Real.pi / 2 := by
    unfold radians
    have := mul_lt_mul_of_pos_right hp90 hfac
    linarith
  have hcosb_nonneg : 0 ≤ Real.cos (radians beta_deg) :=
    Real.cos_nonneg_of_mem_Icc ⟨by linarith, hrb2⟩
  constructor
  · intro hlt
    have hrlt : radians phi_deg < radians beta_deg := by
      unfold radians
      exact mul_lt_mul_of_pos_right hlt hfac
    have hcoslt : Real.cos (radians beta_deg) < Real.cos (radians phi_deg) :=
      Real.cos_lt_cos_of_nonneg_of_le_pi hrp0 (by linarith) hrlt
    have hsq : (Real.cos (radians beta_deg)) ^ 2 < (Real.cos (radians phi_deg)) ^ 2 := by
      nlinarith
    simp only [calculate_ka]
    rw [if_neg hbne, if_pos (by linarith : (Real.cos (radians beta_deg)) ^ 2 - (Real.cos (radians phi_deg)) ^ 2 < 0)]
  · intro hle
    have hrle : radians beta_deg ≤ radians phi_deg := by
      unfold radians
      exact mul_le_mul_of_nonneg_right hle hfac.le
    have hcosp_pos : 0 < Real.cos (radians phi_deg) :=
      Real.cos_pos_of_mem_Ioo ⟨by linarith, hrp2⟩
    have hcosle : Real.cos (radians phi_deg) ≤ Real.cos (radians beta_deg) :=
      Real.cos_le_cos_of_nonneg_of_le_pi (by linarith) (by linarith) hrle
    have hsq : (Real.cos (radians phi_deg)) ^ 2 ≤ (Real.cos (radians beta_deg)) ^ 2 := by
      nlinarith
    simp only [calculate_ka]
    rw [if_neg hbne, if_neg (not_lt.mpr (by linarith : (0 : ℝ) ≤ (Real.cos (radians beta_deg)) ^ 2 - (Real.cos (radians phi_deg)) ^ 2))]

/-- Witness for calculate_ka_sloped_domain: a 60° backfill slope with a
30° friction angle is rejected with the explicit domain error. -/
theorem calculate_ka_sloped_domain_witness :
    calculate_ka 30 60 = Option.none :=
  (calculate_ka_sloped_domain 30 60 (by norm_num) (by norm_num) (by norm_num)
    (by norm_num)).1 (by norm_num)

/-- Claim C6: with the default wall (ordinary soil, zero surcharge, flat
backfill), a groundwater table at depth 1 (groundwater level 0.0 below the
base plus the 1.0 foundation depth) yields a strictly greater active
pressure than a deep table at depth 101 (level 100.0 below the base), at
every evaluation height below the shallow table. -/
theorem groundwater_raises_active_pressure (h : ℝ) (h1 : 1 < h) (h2 : h ≤ 101) :
    ∃ pShallow pDeep,
      calculate_earth_pressure ordinary_soil h (some 1) true 0 0 = some pShallow
      ∧ calculate_earth_pressure ordinary_soil h (some 101) true 0 0 = some pDeep
      ∧ pDeep < pShallow := by
  have h30 : ordinary_soil.friction_angle_deg = (30 : ℝ) := by norm_num [ordinary_soil]
  refine ⟨18 * 1 * (1 / 3) + ((18 - 9.81) * (h - 1) * (1 / 3) + 9.81 * (h - 1)),
    18 * h * (1 / 3) + 0 * (1 / 3), ?_, ?_, ?_⟩
  · simp only [calculate_earth_pressure, h30]
    norm_num [ordinary_soil, calculate_ka_thirty, h1]
  · simp only [calculate_earth_pressure, h30]
    have hnot : ¬ (h > 101) := not_lt.mpr h2
    norm_num [ordinary_soil, calculate_ka_thirty, hnot]
  · linarith

/-- Witness for groundwater_raises_active_pressure at the default wall's
total height of 6. -/
theorem groundwater_raises_active_pressure_witness :
    ∃ pShallow pDeep,
      calculate_earth_pressure ordinary_soil 6 (some 1) true 0 0 = some pShallow
      ∧ calculate_earth_pressure ordinary_soil 6 (some 101) true 0 0 = some pDeep
      ∧ pDeep < pShallow :=
  groundwater_raises_active_pressure 6 (by norm_num) (by norm_num)

/-- Claim C7: for every friction angle in (0°, 90°) with flat backfill,
the product of the active and passive Rankine coefficients is exactly 1. -/
theorem ka_kp_product_one (phi_deg : ℝ) (h0 : 0 < phi_deg) (h90 : phi_deg < 90) :
    ∃ k, calculate_ka phi_deg 0 = some k ∧ k * calculate_kp phi_deg = 1 := by
  have hpi : (0 : ℝ) < Real.pi := Real.pi_pos
  have hfac : (0 : ℝ) < Real.pi / 180 := by positivity
  have hrp0 : 0 < radians phi_deg := by
    unfold radians
    exact mul_pos h0 hfac
  have hrp2 : radians phi_deg < Real.pi / 2 := by
    unfold radians
    have := mul_lt_mul_of_pos_right h90 hfac
    linarith
  refine ⟨(Real.tan (Real.pi / 4 - radians phi_deg / 2)) ^ 2, by simp [calculate_ka], ?_⟩
  unfold calculate_kp
  have harg : Real.pi / 4 - radians phi_deg / 2
      = Real.pi / 2 - (Real.pi / 4 + radians phi_deg / 2) := by ring
  rw [harg, Real.tan_pi_div_two_sub]
  have hpos : 0 < Real.tan (Real.pi / 4 + radians phi_deg / 2) := by
    apply Real.tan_pos_of_pos_of_lt_pi_div_two
    · linarith
    · linarith
  rw [inv_pow]
  exact inv_mul_cancel₀ (pow_ne_zero 2 (ne_of_gt hpos))

/-- Witness for ka_kp_product_one at φ = 30°. -/
theorem ka_kp_product_one_witness :
    ∃ k, calculate_ka 30 0 = some k ∧ k * calculate_kp 30 = 1 :=
  ka_kp_product_one 30 (by norm_num) (by norm_num)

/-- Claim C8: calculate_rebar_area is total for Mu ≥ 0 and positive
section data: the radicand is clamped at 0, and the result is ρ·b·d for a
reinforcement ratio ρ with 0 ≤ ρ ≤ 0.85·fc/fy, hence non-negative. -/
theorem rebar_area_clamped_nonneg (Mu b d fc fy : ℝ) (hMu : 0 ≤ Mu) (hb : 0 < b)
    (hd : 0 < d) (hfc : 0 < fc) (hfy : 0 < fy) :
    ∃ rho, 0 ≤ rho ∧ rho ≤ 0.85 * fc / fy
      ∧ calculate_rebar_area Mu b d fc fy = rho * b * d
      ∧ 0 ≤ calculate_rebar_area Mu b d fc fy := by
  have hRn : 0 ≤ 2 * (Mu * 1e6 / (0.9 * b * d ^ 2)) / (0.85 * fc) := by positivity
  have hEle1 : (if 1 - 2 * (Mu * 1e6 / (0.9 * b * d ^ 2)) / (0.85 * fc) < 0 then (0 : ℝ)
      else 1 - 2 * (Mu * 1e6 / (0.9 * b * d ^ 2)) / (0.85 * fc)) ≤ 1 := by
    split_ifs with hneg
    · norm_num
    · linarith
  have hsq1 : Real.sqrt (if 1 - 2 * (Mu * 1e6 / (0.9 * b * d ^ 2)) / (0.85 * fc) < 0 then (0 : ℝ)
      else 1 - 2 * (Mu * 1e6 / (0.9 * b * d ^ 2)) / (0.85 * fc)) ≤ 1 :=
    Real.sqrt_le_one.mpr hEle1
  have hsq0 : 0 ≤ Real.sqrt (if 1 - 2 * (Mu * 1e6 / (0.9 * b * d ^ 2)) / (0.85 * fc) < 0 then (0 : ℝ)
      else 1 - 2 * (Mu * 1e6 / (0.9 * b * d ^ 2)) / (0.85 * fc)) :=
    Real.sqrt_nonneg _
  have hrho0 : 0 ≤ 0.85 * fc / fy * (1 - Real.sqrt (if 1 - 2 * (Mu * 1e6 / (0.9 * b * d ^ 2)) / (0.85 * fc) < 0 then (0 : ℝ)
      else 1 - 2 * (Mu * 1e6 / (0.9 * b * d ^ 2)) / (0.85 * fc))) := by
    apply mul_nonneg (by positivity)
    linarith
  have heq : calculate_rebar_area Mu b d fc fy
      = 0.85 * fc / fy * (1 - Real.sqrt (if 1 - 2 * (Mu * 1e6 / (0.9 * b * d ^ 2)) / (0.85 * fc) < 0 then (0 : ℝ)
        else 1 - 2 * (Mu * 1e6 / (0.9 * b * d ^ 2)) / (0.85 * fc))) * b * d := by
    simp only [calculate_rebar_area]
  refine ⟨_, hrho0, ?_, heq, ?_⟩
  · apply mul_le_of_le_one_right (by positivity)
    linarith
  · rw [heq]
    exact mul_nonneg (mul_nonneg hrho0 hb.le) hd.le

/-- Witness for rebar_area_clamped_nonneg at a typical stem section. -/
theorem rebar_area_clamped_nonneg_witness :
    ∃ rho, 0 ≤ rho ∧ rho ≤ 0.85 * 28 / 420
      ∧ calculate_rebar_area 50 1000 525 28 420 = rho * 1000 * 525
      ∧ 0 ≤ calculate_rebar_area 50 1000 525 28 420 :=
  rebar_area_clamped_nonneg 50 1000 525 28 420 (by norm_num) (by norm_num) (by norm_num)
    (by norm_num) (by norm_num)

/-- Claim C9: below the groundwater table the computed pressure is
independent of the surcharge load - the groundwater branch recomputes the
pressure without the surcharge term. -/
theorem surcharge_independent_below_groundwater (s : SoilProps) (hgt gw : ℝ) (ia : Bool)
    (q1 q2 slope : ℝ) (hdeep : hgt > gw) :
    calculate_earth_pressure s hgt (some gw) ia q1 slope
      = calculate_earth_pressure s hgt (some gw) ia q2 slope := by
  simp only [calculate_earth_pressure]
  congr 1
  funext K
  simp only [if_pos hdeep]

/-- Witness for surcharge_independent_below_groundwater: surcharge 5 and
surcharge 7 give the same pressure at height 6 with the table at depth 1. -/
theorem surcharge_independent_below_groundwater_witness :
    calculate_earth_pressure ordinary_soil 6 (some 1) true 5 0
      = calculate_earth_pressure ordinary_soil 6 (some 1) true 7 0 :=
  surcharge_independent_below_groundwater ordinary_soil 6 1 true 5 7 0 (by norm_num)

/-- Claim C10: the pressure returned by calculate_earth_pressure never
depends on the soil's cohesion: two soils equal in every field except
cohesion give identical results for all arguments. -/
theorem cohesion_never_read (s1 s2 : SoilProps) (hgt : ℝ) (gw : Option ℝ) (ia : Bool)
    (q slope : ℝ)
    (huw : s1.unit_weight_kn_m3 = s2.unit_weight_kn_m3)
    (hphi : s1.friction_angle_deg = s2.friction_angle_deg)
    (hab : s1.allowable_bearing_pressure_kpa = s2.allowable_bearing_pressure_kpa)
    (huwp : s1.unit_weight_pcf = s2.unit_weight_pcf)
    (habp : s1.allowable_bearing_pressure_psf = s2.allowable_bearing_pressure_psf) :
    calculate_earth_pressure s1 hgt gw ia q slope
      = calculate_earth_pressure s2 hgt gw ia q slope := by
  simp only [calculate_earth_pressure, huw, hphi]

/-- Witness for cohesion_never_read: the built-in compacted CBR-6 soil
(cohesion 5 kPa) and its cohesionless variant give the same pressure. -/
theorem cohesion_never_read_witness :
    compacted_to_cbr_6_percent_soil.cohesion_kpa = 5
    ∧ compacted_soil_without_cohesion.cohesion_kpa = 0
    ∧ calculate_earth_pressure compacted_to_cbr_6_percent_soil 6 (some 101) true 0 0
      = calculate_earth_pressure compacted_soil_without_cohesion 6 (some 101) true 0 0 := by
  refine ⟨by norm_num [compacted_to_cbr_6_percent_soil], by norm_num [compacted_soil_without_cohesion], ?_⟩
  exact cohesion_never_read compacted_to_cbr_6_percent_soil compacted_soil_without_cohesion
    6 (some 101) true 0 0
    (by norm_num [compacted_to_cbr_6_percent_soil, compacted_soil_without_cohesion])
    (by norm_num [compacted_to_cbr_6_percent_soil, compacted_soil_without_cohesion])
    (by norm_num [compacted_to_cbr_6_percent_soil, compacted_soil_without_cohesion])
    (by norm_num [compacted_to_cbr_6_percent_soil, compacted_soil_without_cohesion])
    (by norm_num [compacted_to_cbr_6_percent_soil, compacted_soil_without_cohesion])

end RetainingWall
